import Mathlib

/-!
Shallow embedding of the rust-image-service transformation pipeline
(src/main.rs, src/ops.rs, src/error.rs).

Images are modelled by their dimensions plus a symbolic history of the
pixel-level operations applied to them; the pixel primitives of the
`image` crate (crop_imm, resize_exact, blur, ...) are external
capabilities whose dimension behaviour is modelled from their
documentation, while all validation, parsing, dispatch and arithmetic
logic is translated from the repository's source.
-/

namespace ImageService

/-- Error enum translated from `AppError` in src/error.rs.  Variants whose
payload is an opaque foreign error (image / multipart / io / reqwest
errors) carry no payload here; none of the pipeline claims depend on
those payloads. -/
inductive AppError where
  | imageFetchError (msg : String)
  | imageProcessingError
  | multipartError
  | ioError
  | reqwestError
  | missingImageFile
  | unsupportedFilter (filter : String)
  | invalidFilterParameters (msg : String)
  | unsupportedOutputFormat (format : String)
  | invalidCropDimensions (msg : String)
  | invalidResizeDimensions (msg : String)
  deriving DecidableEq

/-- Resampling kernel enum, from `image::imageops::FilterType`; the pipeline
only ever uses `triangle`. -/
inductive FilterType where
  | nearest
  | triangle
  | catmullRom
  | gaussian
  | lanczos3
  deriving DecidableEq

/-- Symbolic record of one pixel-level operation applied to an image.
Numeric arguments that are `f32` in the source are carried as the exact
rational value of the corresponding binary32 float. -/
inductive PixelOp where
  | cropImm (x y w h : Nat)
  | resizeExact (w h : Nat) (filter : FilterType)
  | grayscale
  | invert
  | blur (sigma : ℚ)
  | sharpen (sigma : ℚ) (threshold : Int)
  | brighten (value : Int)
  | contrast (value : ℚ)
  deriving DecidableEq

/-- Model of `image::DynamicImage`: dimensions are concrete (`u32` values,
represented as `Nat`), pixel content is symbolic via the operation
history. -/
structure DynamicImage where
  width : Nat
  height : Nat
  history : List PixelOp
  deriving DecidableEq

/-- Largest `u32` value. -/
def u32Max : Nat := 2 ^ 32 - 1

/-- Model of `u32::saturating_add`. -/
def u32SatAdd (a b : Nat) : Nat := min (a + b) u32Max

/-- Appends a symbolic pixel operation to an image without changing its
dimensions (used for the dimension-preserving primitives grayscale,
invert, blur, unsharpen, brighten, adjust_contrast). -/
def pushOp (img : DynamicImage) (op : PixelOp) : DynamicImage :=
  DynamicImage.mk img.width img.height (img.history ++ [op])

/-- Model of the external primitive `DynamicImage::crop_imm` (image crate):
the requested rectangle is clipped to the image bounds, so the resulting
dimensions are `min w (W - min x W)` by `min h (H - min y H)`. -/
def crop_imm (img : DynamicImage) (x y w h : Nat) : DynamicImage :=
  let x' := min x img.width
  let y' := min y img.height
  let w' := min w (img.width - x')
  let h' := min h (img.height - y')
  DynamicImage.mk w' h' (img.history ++ [PixelOp.cropImm x' y' w' h'])

/-- Model of the external primitive `DynamicImage::resize_exact`: the result
has exactly the requested dimensions. -/
def resize_exact (img : DynamicImage) (nwidth nheight : Nat) (filter : FilterType) :
    DynamicImage :=
  DynamicImage.mk nwidth nheight (img.history ++ [PixelOp.resizeExact nwidth nheight filter])

/-- Translation of `ops::resize_image` (src/ops.rs). -/
def resize_image (img : DynamicImage) (nwidth nheight : Nat) (filter : FilterType) :
    DynamicImage :=
  resize_exact img nwidth nheight filter

/-- Translation of `ops::crop_image` (src/ops.rs): the bounds check uses
saturating addition, then delegates to `crop_imm`. -/
def crop_image (img : DynamicImage) (x y width height : Nat) :
    Except AppError DynamicImage :=
  if u32SatAdd x width > img.width ∨ u32SatAdd y height > img.height then
    .error (.invalidCropDimensions "crop window is outside the image bounds.")
  else
    .ok (crop_imm img x y width height)

/-! ### Binary32 floating-point model

The aspect-ratio derivation in `apply_transformations` computes with `f32`.
We model an `f32` value by the exact rational it denotes, and each
operation by exact rational arithmetic followed by rounding to 24
significant bits (round-to-nearest, ties-to-even), which is IEEE-754
binary32 arithmetic throughout the normal range.  Subnormal and
non-finite values are outside the range exercised by the theorems below
(`u32`-sized dimensions with positive divisors stay well inside it). -/

/-- Fuel-based floor-log2 recursion (structural, so it evaluates inside
proofs). -/
def natLog2Aux : Nat → Nat → Nat
  | 0, _ => 0
  | _ + 1, 0 => 0
  | fuel + 1, n => if n ≥ 2 then natLog2Aux fuel (n / 2) + 1 else 0

/-- Floor of the base-2 logarithm (0 at 0), with the argument as fuel. -/
def natLog2 (n : Nat) : Nat := natLog2Aux n n

/-- For `q ≠ 0`, the unique exponent `e` with `2 ^ e ≤ |q| < 2 ^ (e + 1)`. -/
def qexp (q : ℚ) : Int :=
  let a : Int := natLog2 q.num.natAbs
  let b : Int := natLog2 q.den
  if (2 : ℚ) ^ (a - b) ≤ |q| then a - b else a - b - 1

/-- Rounds a rational to the nearest integer, ties to even. -/
def rne (q : ℚ) : Int :=
  let fl := ⌊q⌋
  let frac := q - fl
  if frac < 1 / 2 then fl
  else if 1 / 2 < frac then fl + 1
  else if fl % 2 = 0 then fl else fl + 1

/-- Rounds an exact rational to the nearest binary32 value (normal range). -/
def roundF32 (q : ℚ) : ℚ :=
  if q = 0 then 0
  else
    let s : ℚ := if q < 0 then -1 else 1
    let e := qexp q
    s * ((rne (|q| * (2 : ℚ) ^ ((23 : Int) - e)) : ℚ) * (2 : ℚ) ^ (e - (23 : Int)))

/-- Model of the Rust cast `n as f32` for `n : u32`. -/
def f32ofNat (n : Nat) : ℚ := roundF32 n

/-- Model of `f32` division in the normal range.  Division by zero yields
infinity in Rust; that value is outside this model and outside the range
used by the theorems below (divisors are hypothesised positive). -/
def f32div (a b : ℚ) : ℚ := if b = 0 then 0 else roundF32 (a / b)

/-- Model of `f32` multiplication in the normal range. -/
def f32mul (a b : ℚ) : ℚ := roundF32 (a * b)

/-- Model of the saturating Rust cast `x as u32` for `x : f32`: truncation
toward zero, clamped to `[0, u32::MAX]`. -/
def u32ofF32 (q : ℚ) : Nat :=
  if q < 0 then 0 else min (Int.toNat ⌊q⌋) u32Max

/-! ### Models of the Rust standard-library string functions used -/

/-- Model of `str::split(':')` on the character list: splitting on a
separator always yields at least one (possibly empty) piece. -/
def splitChar (sep : Char) : List Char → List (List Char)
  | [] => [[]]
  | c :: rest =>
    let r := splitChar sep rest
    if c = sep then [] :: r
    else
      match r with
      | [] => [[c]]
      | p :: ps => (c :: p) :: ps

/-- Splits a string on a character, modelling Rust `str::split`. -/
def splitOnChar (sep : Char) (s : String) : List String :=
  (splitChar sep s.data).map (fun cs => String.mk cs)

/-- Model of `str::to_lowercase`.  All strings the service compares are
ASCII, where Rust's Unicode lowering agrees with per-character ASCII
lowering. -/
def toLowerStr (s : String) : String :=
  String.mk (s.data.map Char.toLower)

/-- ASCII whitespace predicate; the strings trimmed by the service contain
no non-ASCII whitespace, where Rust `char::is_whitespace` agrees. -/
def isWsChar (c : Char) : Bool :=
  c = ' ' ∨ c = '\t' ∨ c = '\n' ∨ c = '\r'

/-- Model of `str::trim`. -/
def trimStr (s : String) : String :=
  String.mk (((s.data.dropWhile isWsChar).reverse.dropWhile isWsChar).reverse)

/-- Accumulates decimal digits; fails on any non-digit character. -/
def digitsAccum : List Char → Nat → Option Nat
  | [], acc => some acc
  | c :: cs, acc =>
    if c.isDigit then digitsAccum cs (acc * 10 + (c.toNat - 48))
    else none

/-- Parses a nonempty all-digit character list as a natural number. -/
def parseNatDigits (cs : List Char) : Option Nat :=
  if cs.isEmpty then none else digitsAccum cs 0

/-- Splits a character list at the first character satisfying `p`; returns
the part before it and, when found, the part after it. -/
def breakAtChar (p : Char → Bool) : List Char → List Char × Option (List Char)
  | [] => ([], none)
  | c :: cs =>
    if p c then ([], some cs)
    else
      let r := breakAtChar p cs
      (c :: r.1, r.2)

/-- Strips an optional leading sign; returns whether it was `'-'`. -/
def stripSign : List Char → Bool × List Char
  | '-' :: r => (true, r)
  | '+' :: r => (false, r)
  | cs => (false, cs)

def i32Min : Int := -(2 ^ 31)

def i32Max : Int := 2 ^ 31 - 1

/-- Model of `str::parse::<i32>`: optional sign, nonempty digits, value
within the `i32` range. -/
def parseI32 (s : String) : Option Int :=
  let sc := stripSign s.data
  match parseNatDigits sc.2 with
  | some n =>
    let v : Int := if sc.1 then -(n : Int) else (n : Int)
    if i32Min ≤ v ∧ v ≤ i32Max then some v else none
  | none => none

/-- Model of `str::parse::<f32>` on finite decimal literals: optional sign,
digits with at most one point (at least one digit overall), optional
`e`/`E` exponent; the exact decimal value is rounded to the nearest
binary32.  The non-finite literals `inf`/`infinity`/`nan`, which Rust
also accepts, denote values outside this model's range and are not among
the inputs exercised below. -/
def parseF32 (s : String) : Option ℚ :=
  let sc := stripSign s.data
  let neg := sc.1
  let me := breakAtChar (fun c => c = 'e' || c = 'E') sc.2
  let expVal : Option Int :=
    match me.2 with
    | none => some 0
    | some ecs =>
      let esc := stripSign ecs
      match parseNatDigits esc.2 with
      | some n => some (if esc.1 then -(n : Int) else (n : Int))
      | none => none
  let ipfp := breakAtChar (fun c => c = '.') me.1
  let ip := ipfp.1
  let fp := (ipfp.2).getD []
  if fp.any (fun c => c = '.') then none
  else if ip.isEmpty ∧ fp.isEmpty then none
  else
    match expVal with
    | none => none
    | some e =>
      match digitsAccum ip 0, digitsAccum fp 0 with
      | some i, some f =>
        let base : ℚ := (i : ℚ) + (f : ℚ) / (10 : ℚ) ^ fp.length
        let v : ℚ := base * (10 : ℚ) ^ e
        some (roundF32 (if neg then -v else v))
      | _, _ => none

/-! ### Filter dispatcher (src/ops.rs, `apply_filter_str`) -/

/-- Translation of `ops::apply_filter_str` (src/ops.rs lines 48-115):
splits the spec on `':'`, lower-cases the first token, dispatches on it,
parsing positional numeric arguments with per-filter defaults. -/
def apply_filter_str (img : DynamicImage) (filter_str : String) :
    Except AppError DynamicImage :=
  let parts : List String := splitOnChar ':' filter_str
  let filter_name := toLowerStr (parts.headD "")
  if filter_name = "grayscale" then .ok (pushOp img .grayscale)
  else if filter_name = "invert" then .ok (pushOp img .invert)
  else if filter_name = "blur" then
    if parts.length > 1 then
      match parseF32 (parts.getD 1 "") with
      | some sigma => .ok (pushOp img (.blur sigma))
      | none => .error (.invalidFilterParameters "invalid blur sigma value")
    else .ok (pushOp img (.blur 1))
  else if filter_name = "sharpen" then
    let sigmaE : Except AppError ℚ :=
      if parts.length > 1 then
        match parseF32 (parts.getD 1 "") with
        | some v => .ok v
        | none => .error (.invalidFilterParameters "invalid sharpen sigma value")
      else .ok 1
    let thresholdE : Except AppError Int :=
      if parts.length > 2 then
        match parseI32 (parts.getD 2 "") with
        | some v => .ok v
        | none => .error (.invalidFilterParameters "invalid sharpen threshold value")
      else .ok 0
    sigmaE.bind fun sigma =>
      thresholdE.bind fun threshold =>
        .ok (pushOp img (.sharpen sigma threshold))
  else if filter_name = "brighten" then
    if parts.length > 1 then
      match parseI32 (trimStr (parts.getD 1 "")) with
      | some value => .ok (pushOp img (.brighten value))
      | none => .error (.invalidFilterParameters "invalid brighten value.")
    else .ok (pushOp img (.brighten 10))
  else if filter_name = "contrast" then
    if parts.length > 1 then
      match parseF32 (trimStr (parts.getD 1 "")) with
      | some value => .ok (pushOp img (.contrast value))
      | none => .error (.invalidFilterParameters "invalid contrast value.")
    else .ok (pushOp img (.contrast 10))
  else .error (.unsupportedFilter filter_name)

/-! ### Format encoder (src/ops.rs, `encode_image_to_bytes`) -/

/-- Symbolic encoder output: the bytes produced by the (deterministic)
external encoders, determined by the image, the format, and for JPEG the
effective quality. -/
inductive EncodedBytes where
  | png (img : DynamicImage)
  | jpeg (img : DynamicImage) (quality : Nat)
  | webp (img : DynamicImage)
  | bmp (img : DynamicImage)
  | gif (img : DynamicImage)
  deriving DecidableEq

/-- Translation of `ops::ProcessedImage`. -/
structure ProcessedImage where
  bytes : EncodedBytes
  mime_type : String
  deriving DecidableEq

/-- Translation of `ops::encode_image_to_bytes` (src/ops.rs lines 117-163).
The quality parameter is a `u8` in the source, represented as `Nat`. -/
def encode_image_to_bytes (img : DynamicImage) (format_str : String)
    (quality : Option Nat) : Except AppError ProcessedImage :=
  let f := toLowerStr format_str
  if f = "png" then .ok (ProcessedImage.mk (.png img) "image/png")
  else if f = "jpeg" ∨ f = "jpg" then
    let q := min (max (quality.getD 80) 1) 100
    .ok (ProcessedImage.mk (.jpeg img q) "image/jpeg")
  else if f = "webp" then .ok (ProcessedImage.mk (.webp img) "image/webp")
  else if f = "bmp" then .ok (ProcessedImage.mk (.bmp img) "image/bmp")
  else if f = "gif" then .ok (ProcessedImage.mk (.gif img) "image/gif")
  else .error (.unsupportedOutputFormat format_str)

/-! ### Transformation pipeline (src/main.rs, `apply_transformations`)

The three blocks of `apply_transformations` are factored into one
function per stage; `apply_transformations` chains them exactly as the
source does (crop, then resize, then filter, failing fast). -/

/-- Crop block of `apply_transformations` (src/main.rs lines 200-209):
runs only when all four crop fields are present; rejects zero extents,
then delegates to `crop_image`. -/
def crop_stage (img : DynamicImage) (crop_x crop_y crop_w crop_h : Option Nat) :
    Except AppError DynamicImage :=
  match crop_x, crop_y, crop_w, crop_h with
  | some cx, some cy, some cw, some ch =>
    if cw > 0 ∧ ch > 0 then crop_image img cx cy cw ch
    else .error (.invalidCropDimensions "crop width and height must be greater than 0.")
  | _, _, _, _ => .ok img

/-- Resize block of `apply_transformations` (src/main.rs lines 211-246):
runs only when `w` or `h` is present; a missing dimension is derived from
the aspect ratio in `f32` arithmetic and truncated by the `as u32` cast. -/
def resize_stage (img : DynamicImage) (w h : Option Nat) :
    Except AppError DynamicImage :=
  let current_w := img.width
  let current_h := img.height
  let target_w := w.getD current_w
  let target_h := h.getD current_h
  if w.isSome || h.isSome then
    if target_w > 0 ∧ target_h > 0 then
      let fwh : Nat × Nat :=
        if w.isNone ∧ h.isSome then
          let aspect_ratio := f32div (f32ofNat current_w) (f32ofNat current_h)
          (u32ofF32 (f32mul (f32ofNat target_h) aspect_ratio), target_h)
        else if w.isSome ∧ h.isNone then
          let aspect_ratio := f32div (f32ofNat current_h) (f32ofNat current_w)
          (target_w, u32ofF32 (f32mul (f32ofNat target_w) aspect_ratio))
        else (target_w, target_h)
      if fwh.1 > 0 ∧ fwh.2 > 0 then
        .ok (resize_image img fwh.1 fwh.2 FilterType.triangle)
      else if w.isSome || h.isSome then
        .error (.invalidResizeDimensions
          "resize width and height must result in dimensions greater than 0")
      else .ok img
    else if w.isSome || h.isSome then
      .error (.invalidResizeDimensions
        "target resize width and height must be greater than 0")
    else .ok img
  else .ok img

/-- Filter block of `apply_transformations` (src/main.rs lines 248-253):
runs only when the filter string is present and nonempty after trimming;
the untrimmed string is passed to the dispatcher. -/
def filter_stage (img : DynamicImage) (filter_str : Option String) :
    Except AppError DynamicImage :=
  match filter_str with
  | some f_str =>
    if (trimStr f_str).data ≠ [] then apply_filter_str img f_str else .ok img
  | none => .ok img

/-- Translation of `apply_transformations` (src/main.rs lines 190-256). -/
def apply_transformations (img : DynamicImage) (w h : Option Nat)
    (crop_x crop_y crop_w crop_h : Option Nat) (filter_str : Option String) :
    Except AppError DynamicImage :=
  (crop_stage img crop_x crop_y crop_w crop_h).bind fun img1 =>
    (resize_stage img1 w h).bind fun img2 =>
      filter_stage img2 filter_str

/-- Decidable equality for pipeline results. -/
instance {ε α : Type} [DecidableEq ε] [DecidableEq α] : DecidableEq (Except ε α) :=
  fun a b =>
    match a, b with
    | .error e, .error f =>
      if h : e = f then .isTrue (congrArg Except.error h)
      else .isFalse (fun c => h (Except.error.inj c))
    | .error _, .ok _ => .isFalse (fun c => Except.noConfusion c)
    | .ok _, .error _ => .isFalse (fun c => Except.noConfusion c)
    | .ok x, .ok y =>
      if h : x = y then .isTrue (congrArg Except.ok h)
      else .isFalse (fun c => h (Except.ok.inj c))

attribute [local semireducible] Rat.mul Rat.add Rat.sub Rat.inv Rat.ofScientific

/-! ### Helper lemmas -/

/-- A crop-stage error propagates through the whole pipeline. -/
theorem pipeline_crop_error (img : DynamicImage) (w h cx cy cw ch : Option Nat)
    (fs : Option String) (e : AppError)
    (hc : crop_stage img cx cy cw ch = .error e) :
    apply_transformations img w h cx cy cw ch fs = .error e := by
  simp [apply_transformations, hc, Except.bind]

/-- The crop stage rejects zero extents with the zero-extent message. -/
theorem crop_stage_zero (img : DynamicImage) (cx cy cw ch : Nat)
    (hz : cw = 0 ∨ ch = 0) :
    crop_stage img (some cx) (some cy) (some cw) (some ch)
      = .error (.invalidCropDimensions "crop width and height must be greater than 0.") := by
  unfold crop_stage
  rcases hz with hz | hz <;> simp [hz]

/-- The crop stage rejects window overruns detected by the saturating check. -/
theorem crop_stage_oob (img : DynamicImage) (cx cy cw ch : Nat)
    (hw : 0 < cw) (hh : 0 < ch)
    (hb : u32SatAdd cx cw > img.width ∨ u32SatAdd cy ch > img.height) :
    crop_stage img (some cx) (some cy) (some cw) (some ch)
      = .error (.invalidCropDimensions "crop window is outside the image bounds.") := by
  unfold crop_stage crop_image
  simp [hw, hh, hb]

/-- When only the height is given, the resize stage derives the width by the
`f32` computation followed by the truncating `as u32` cast. -/
theorem resize_stage_h_only (img : DynamicImage) (h : Nat)
    (hW : 0 < img.width) (hh : 0 < h)
    (hfw : 0 < u32ofF32 (f32mul (f32ofNat h)
      (f32div (f32ofNat img.width) (f32ofNat img.height)))) :
    resize_stage img none (some h)
      = .ok (resize_image img
          (u32ofF32 (f32mul (f32ofNat h)
            (f32div (f32ofNat img.width) (f32ofNat img.height))))
          h FilterType.triangle) := by
  unfold resize_stage
  simp [hW, hh, hfw]

/-- When only the width is given, the resize stage derives the height by the
`f32` computation followed by the truncating `as u32` cast. -/
theorem resize_stage_w_only (img : DynamicImage) (w : Nat)
    (hH : 0 < img.height) (hw : 0 < w)
    (hfh : 0 < u32ofF32 (f32mul (f32ofNat w)
      (f32div (f32ofNat img.height) (f32ofNat img.width)))) :
    resize_stage img (some w) none
      = .ok (resize_image img w
          (u32ofF32 (f32mul (f32ofNat w)
            (f32div (f32ofNat img.height) (f32ofNat img.width))))
          FilterType.triangle) := by
  unfold resize_stage
  simp [hH, hw, hfh]

/-! ### Claims -/

/-- C3: for every crop request in which all four crop fields are present and
the crop width is 0 or the crop height is 0, the pipeline fails with
`InvalidCropDimensions`, regardless of the values of `x`, `y`, the other
extent and all remaining parameters. -/
theorem C3_crop_zero_extent (img : DynamicImage) (w h : Option Nat)
    (cx cy cw ch : Nat) (fs : Option String) (hz : cw = 0 ∨ ch = 0) :
    apply_transformations img w h (some cx) (some cy) (some cw) (some ch) fs
      = .error (.invalidCropDimensions "crop width and height must be greater than 0.") :=
  pipeline_crop_error img w h _ _ _ _ fs _ (crop_stage_zero img cx cy cw ch hz)

/-- Witness for C3: a concrete zero-width crop that is also out of bounds
still reports the zero-extent `InvalidCropDimensions` error. -/
theorem C3_crop_zero_extent_witness :
    apply_transformations ⟨4, 4, []⟩ none none (some 9) (some 1) (some 0) (some 2) none
      = .error (.invalidCropDimensions "crop width and height must be greater than 0.") :=
  C3_crop_zero_extent ⟨4, 4, []⟩ none none 9 1 0 2 none (Or.inl rfl)

/-- C5: for every crop request `(x, y, w, h)` with `w > 0`, `h > 0`,
`x + w ≤ W` and `y + h ≤ H` on an image of dimensions `(W, H)`, the crop
stage succeeds and the resulting image's dimensions are exactly `(w, h)`. -/
theorem C5_valid_crop_exact_dims (hist : List PixelOp) (W H x y w h : Nat)
    (hW : W < 2 ^ 32) (hH : H < 2 ^ 32) (hw : 0 < w) (hh : 0 < h)
    (hxw : x + w ≤ W) (hyh : y + h ≤ H) :
    apply_transformations ⟨W, H, hist⟩ none none (some x) (some y) (some w) (some h) none
      = .ok ⟨w, h, hist ++ [PixelOp.cropImm x y w h]⟩ := by
  have hc : crop_stage ⟨W, H, hist⟩ (some x) (some y) (some w) (some h)
      = .ok ⟨w, h, hist ++ [PixelOp.cropImm x y w h]⟩ := by
    unfold crop_stage crop_image crop_imm u32SatAdd u32Max
    have h1 : min (x + w) (2 ^ 32 - 1) = x + w := by omega
    have h2 : min (y + h) (2 ^ 32 - 1) = y + h := by omega
    have hx : min x W = x := by omega
    have hy : min y H = y := by omega
    have hww : min w (W - x) = w := by omega
    have hhh : min h (H - y) = h := by omega
    simp only [h1, h2, hx, hy, hww, hhh]
    have hcond : ¬(x + w > W ∨ y + h > H) := by omega
    simp [hw, hh, hcond]
  simp [apply_transformations, hc, Except.bind, resize_stage, filter_stage]

/-- Witness for C5 at a concrete valid crop. -/
theorem C5_valid_crop_exact_dims_witness :
    apply_transformations ⟨6, 5, []⟩ none none (some 1) (some 1) (some 2) (some 3) none
      = .ok ⟨2, 3, [] ++ [PixelOp.cropImm 1 1 2 3]⟩ :=
  C5_valid_crop_exact_dims [] 6 5 1 1 2 3 (by decide) (by decide) (by decide)
    (by decide) (by decide) (by decide)

/-- C7: for every image, the filter dispatcher fails on `"blur:abc"` with
`InvalidFilterParameters` and on `"nonsense"` with
`UnsupportedFilter "nonsense"`; the two error kinds are distinct. -/
theorem C7_filter_error_kinds (img : DynamicImage) :
    apply_filter_str img "blur:abc"
        = .error (.invalidFilterParameters "invalid blur sigma value")
      ∧ apply_filter_str img "nonsense" = .error (.unsupportedFilter "nonsense")
      ∧ ∀ m k, AppError.invalidFilterParameters m ≠ AppError.unsupportedFilter k :=
  ⟨rfl, rfl, fun _ _ => AppError.noConfusion⟩

/-- Witness for C7 on a concrete image. -/
theorem C7_filter_error_kinds_witness :
    apply_filter_str ⟨1, 1, []⟩ "blur:abc"
        = .error (.invalidFilterParameters "invalid blur sigma value")
      ∧ apply_filter_str ⟨1, 1, []⟩ "nonsense" = .error (.unsupportedFilter "nonsense") :=
  ⟨(C7_filter_error_kinds ⟨1, 1, []⟩).1, (C7_filter_error_kinds ⟨1, 1, []⟩).2.1⟩

/-- C8: for every image, the filter spec `"brighten"` (no argument) behaves
identically to `"brighten:10"`: the default brighten argument is 10. -/
theorem C8_brighten_default (img : DynamicImage) :
    apply_filter_str img "brighten" = apply_filter_str img "brighten:10" := rfl

/-- Witness for C8 on a concrete image. -/
theorem C8_brighten_default_witness :
    apply_filter_str ⟨1, 1, []⟩ "brighten" = apply_filter_str ⟨1, 1, []⟩ "brighten:10" :=
  C8_brighten_default ⟨1, 1, []⟩

/-- C9: for every image and every recognized filter kind, colon-separated
tokens beyond the kind's declared arity are silently ignored rather than
rejected. -/
theorem C9_extra_tokens_ignored (img : DynamicImage) :
    apply_filter_str img "grayscale:junk" = apply_filter_str img "grayscale"
      ∧ apply_filter_str img "invert:1:2" = apply_filter_str img "invert"
      ∧ apply_filter_str img "blur:1.0:junk" = apply_filter_str img "blur:1.0"
      ∧ apply_filter_str img "sharpen:2.0:3:junk" = apply_filter_str img "sharpen:2.0:3"
      ∧ apply_filter_str img "brighten:10:junk" = apply_filter_str img "brighten:10"
      ∧ apply_filter_str img "contrast:12.5:junk" = apply_filter_str img "contrast:12.5" :=
  ⟨rfl, rfl, rfl, rfl, rfl, rfl⟩

/-- Witness for C9 on a concrete image. -/
theorem C9_extra_tokens_ignored_witness :
    apply_filter_str ⟨1, 1, []⟩ "grayscale:junk" = apply_filter_str ⟨1, 1, []⟩ "grayscale"
      ∧ apply_filter_str ⟨1, 1, []⟩ "invert:1:2" = apply_filter_str ⟨1, 1, []⟩ "invert"
      ∧ apply_filter_str ⟨1, 1, []⟩ "blur:1.0:junk" = apply_filter_str ⟨1, 1, []⟩ "blur:1.0"
      ∧ apply_filter_str ⟨1, 1, []⟩ "sharpen:2.0:3:junk"
          = apply_filter_str ⟨1, 1, []⟩ "sharpen:2.0:3"
      ∧ apply_filter_str ⟨1, 1, []⟩ "brighten:10:junk"
          = apply_filter_str ⟨1, 1, []⟩ "brighten:10"
      ∧ apply_filter_str ⟨1, 1, []⟩ "contrast:12.5:junk"
          = apply_filter_str ⟨1, 1, []⟩ "contrast:12.5" :=
  C9_extra_tokens_ignored ⟨1, 1, []⟩

/-- C10: a filter spec that is non-empty after trimming but whose first
colon-separated token carries surrounding whitespace is not treated as a
no-op and not recognized as its whitespace-free kind: it fails with
`UnsupportedFilter` carrying the untrimmed, lower-cased token. -/
theorem C10_untrimmed_first_token (img : DynamicImage) :
    apply_transformations img none none none none none none (some " grayscale")
        = .error (.unsupportedFilter " grayscale")
      ∧ apply_transformations img none none none none none none (some "grayscale ")
        = .error (.unsupportedFilter "grayscale ") :=
  ⟨rfl, rfl⟩

/-- Witness for C10 on a concrete image. -/
theorem C10_untrimmed_first_token_witness :
    apply_transformations ⟨1, 1, []⟩ none none none none none none (some " grayscale")
        = .error (.unsupportedFilter " grayscale")
      ∧ apply_transformations ⟨1, 1, []⟩ none none none none none none (some "grayscale ")
        = .error (.unsupportedFilter "grayscale ") :=
  C10_untrimmed_first_token ⟨1, 1, []⟩

/-- C6: the encoder treats the format token case-insensitively (`"JPEG"` and
`"jpeg"` select the same encoding with MIME `image/jpeg`, as does `"jpg"`);
for jpeg, quality 150 is clamped to 100, quality 0 is clamped to 1, an
absent quality defaults to 80, and the effective quality always lies in
`[1, 100]`. -/
theorem C6_encoder_case_and_quality :
    (∀ (img : DynamicImage) (q : Option Nat),
        encode_image_to_bytes img "JPEG" q = encode_image_to_bytes img "jpeg" q
      ∧ encode_image_to_bytes img "jpg" q = encode_image_to_bytes img "jpeg" q
      ∧ ∃ q', encode_image_to_bytes img "jpeg" q
            = .ok ⟨.jpeg img q', "image/jpeg"⟩ ∧ 1 ≤ q' ∧ q' ≤ 100)
    ∧ (∀ (img : DynamicImage) (q : Nat), 100 ≤ q →
        encode_image_to_bytes img "jpeg" (some q) = .ok ⟨.jpeg img 100, "image/jpeg"⟩)
    ∧ (∀ img : DynamicImage, encode_image_to_bytes img "jpeg" (some 0)
        = .ok ⟨.jpeg img 1, "image/jpeg"⟩)
    ∧ (∀ img : DynamicImage, encode_image_to_bytes img "jpeg" none
        = .ok ⟨.jpeg img 80, "image/jpeg"⟩) := by
  refine ⟨fun img q => ⟨rfl, rfl, min (max (q.getD 80) 1) 100, rfl, ?_, ?_⟩,
    fun img q hq => ?_, fun img => rfl, fun img => rfl⟩
  · exact le_min (Nat.le_max_right _ _) (by omega)
  · exact min_le_right _ _
  · have h1 : encode_image_to_bytes img "jpeg" (some q)
        = .ok ⟨.jpeg img (min (max q 1) 100), "image/jpeg"⟩ := rfl
    rw [h1, (by omega : min (max q 1) 100 = 100)]

/-- Witness for C6: quality 150 is clamped to 100 on a concrete image. -/
theorem C6_encoder_case_and_quality_witness :
    encode_image_to_bytes ⟨1, 1, []⟩ "jpeg" (some 150)
      = .ok ⟨.jpeg ⟨1, 1, []⟩ 100, "image/jpeg"⟩ :=
  C6_encoder_case_and_quality.2.1 ⟨1, 1, []⟩ 150 (by omega)

/-- C2, counterexample: on an image of width `u32::MAX`, the crop
`(x, y, w, h) = (u32::MAX, 0, 1, 1)` has mathematical sum
`x + w = 2^32 > W`, yet the saturating check computes
`u32::MAX.saturating_add(1) = u32::MAX = W`, which is not `> W`, so the
pipeline does not fail with `InvalidCropDimensions`: it returns a cropped
image (clipped by `crop_imm` to width 0). -/
theorem C2_counterexample :
    u32Max + 1 > u32Max
      ∧ apply_transformations ⟨u32Max, 1, []⟩ none none
          (some u32Max) (some 0) (some 1) (some 1) none
        = .ok ⟨0, 1, [PixelOp.cropImm u32Max 0 0 1]⟩ :=
  ⟨by decide, by decide⟩

/-- C2, amended: for every crop request `(x, y, w, h)` on an image of
dimensions `(W, H)` where `x + w > W` with `W < u32::MAX`, or `y + h > H`
with `H < u32::MAX`, the pipeline fails with `InvalidCropDimensions`;
saturating addition prevents overflow false negatives except in the
degenerate case where the image dimension itself is `u32::MAX` (where the
saturated sum can collapse onto the bound). -/
theorem C2_amended_bounds_check (img : DynamicImage) (w h : Option Nat)
    (x y cw ch : Nat) (fs : Option String)
    (hout : (x + cw > img.width ∧ img.width < u32Max)
      ∨ (y + ch > img.height ∧ img.height < u32Max)) :
    ∃ msg, apply_transformations img w h (some x) (some y) (some cw) (some ch) fs
      = .error (.invalidCropDimensions msg) := by
  by_cases hz : cw = 0 ∨ ch = 0
  · exact ⟨_, pipeline_crop_error img w h _ _ _ _ fs _ (crop_stage_zero img x y cw ch hz)⟩
  · push_neg at hz
    have hb : u32SatAdd x cw > img.width ∨ u32SatAdd y ch > img.height := by
      unfold u32SatAdd u32Max
      unfold u32Max at hout
      omega
    exact ⟨_, pipeline_crop_error img w h _ _ _ _ fs _
      (crop_stage_oob img x y cw ch (by omega) (by omega) hb)⟩

/-- Witness for the amended C2 at a concrete out-of-bounds crop. -/
theorem C2_amended_bounds_check_witness :
    ∃ msg, apply_transformations ⟨4, 4, []⟩ none none
        (some 10) (some 0) (some 1) (some 1) none
      = .error (.invalidCropDimensions msg) :=
  C2_amended_bounds_check ⟨4, 4, []⟩ none none 10 0 1 1 none
    (Or.inl ⟨by decide, by decide⟩)

/-- C4: whenever a resize is requested (`w` or `h` present) with an
explicitly supplied target width or height equal to 0, and the crop stage
did not itself fail, the pipeline fails with `InvalidResizeDimensions`
carrying the pre-derivation ("target") message, so the failure occurs
before any aspect-ratio derivation; and when neither `w` nor `h` is
present the resize stage is a no-op, so no such error can arise. -/
theorem C4_explicit_zero_resize :
    (∀ (img img1 : DynamicImage) (cx cy cw ch w h : Option Nat) (fs : Option String),
      crop_stage img cx cy cw ch = .ok img1 →
      w = some 0 ∨ h = some 0 →
      apply_transformations img w h cx cy cw ch fs
        = .error (.invalidResizeDimensions
            "target resize width and height must be greater than 0"))
    ∧ ∀ img : DynamicImage, resize_stage img none none = .ok img := by
  constructor
  · intro img img1 cx cy cw ch w h fs hc hz
    have hr : resize_stage img1 w h
        = .error (.invalidResizeDimensions
            "target resize width and height must be greater than 0") := by
      rcases hz with rfl | rfl
      · simp [resize_stage]
      · simp [resize_stage]
    simp [apply_transformations, hc, Except.bind, hr]
  · intro img
    simp [resize_stage]

/-- Witness for C4 at a concrete request with `w = 0`. -/
theorem C4_explicit_zero_resize_witness :
    apply_transformations ⟨4, 4, []⟩ (some 0) none none none none none none
      = .error (.invalidResizeDimensions
          "target resize width and height must be greater than 0") :=
  C4_explicit_zero_resize.1 ⟨4, 4, []⟩ ⟨4, 4, []⟩ none none none none
    (some 0) none none rfl (Or.inl rfl)

/-- C1, counterexample: on a 3×2 image, resizing with only `h = 1` given
yields width 1, because the source truncates the `f32` product
`1 * (3/2) = 1.5` with an `as u32` cast; round-to-nearest of
`1 * 3 / 2 = 1.5` would give 2, so the derived dimension is not computed
by round-to-nearest. -/
theorem C1_counterexample :
    apply_transformations ⟨3, 2, []⟩ none (some 1) none none none none none
        = .ok ⟨1, 1, [PixelOp.resizeExact 1 1 FilterType.triangle]⟩
      ∧ round ((1 * 3 : ℚ) / 2) ≠ (1 : Int) :=
  ⟨by decide, by decide⟩

/-- C1, amended: when a resize is requested with only the height `h` given,
the result width is the truncation (floor, via the `as u32` cast) of the
`f32` product `h * (W0 / H0)` — not round-to-nearest; on inputs where the
`f32` computation is exact this equals `⌊h * W0 / H0⌋`.  The mirror holds
when only the width `w` is given: the result height is the truncation of
the `f32` product `w * (H0 / W0)`, equal to `⌊w * H0 / W0⌋` when the
`f32` computation is exact. -/
theorem C1_amended_truncation :
    (∀ (hist : List PixelOp) (W0 H0 h : Nat),
      0 < W0 → 0 < H0 → 0 < h →
      f32mul (f32ofNat h) (f32div (f32ofNat W0) (f32ofNat H0)) = (h * W0 : ℚ) / H0 →
      1 ≤ ⌊(h * W0 : ℚ) / H0⌋ →
      Int.toNat ⌊(h * W0 : ℚ) / H0⌋ ≤ u32Max →
      apply_transformations ⟨W0, H0, hist⟩ none (some h) none none none none none
        = .ok ⟨Int.toNat ⌊(h * W0 : ℚ) / H0⌋, h,
            hist ++ [PixelOp.resizeExact (Int.toNat ⌊(h * W0 : ℚ) / H0⌋) h
              FilterType.triangle]⟩)
    ∧ (∀ (hist : List PixelOp) (W0 H0 w : Nat),
      0 < W0 → 0 < H0 → 0 < w →
      f32mul (f32ofNat w) (f32div (f32ofNat H0) (f32ofNat W0)) = (w * H0 : ℚ) / W0 →
      1 ≤ ⌊(w * H0 : ℚ) / W0⌋ →
      Int.toNat ⌊(w * H0 : ℚ) / W0⌋ ≤ u32Max →
      apply_transformations ⟨W0, H0, hist⟩ (some w) none none none none none none
        = .ok ⟨w, Int.toNat ⌊(w * H0 : ℚ) / W0⌋,
            hist ++ [PixelOp.resizeExact w (Int.toNat ⌊(w * H0 : ℚ) / W0⌋)
              FilterType.triangle]⟩) := by
  constructor
  · intro hist W0 H0 h hW0 hH0 hh hexact hfl hle
    have hq0 : ¬((h * W0 : ℚ) / H0 < 0) := not_lt.mpr (by positivity)
    have hfw : u32ofF32 ((h * W0 : ℚ) / H0) = Int.toNat ⌊(h * W0 : ℚ) / H0⌋ := by
      unfold u32ofF32
      rw [if_neg hq0]
      exact min_eq_left hle
    have hpos : 0 < Int.toNat ⌊(h * W0 : ℚ) / H0⌋ := by omega
    have hr := resize_stage_h_only ⟨W0, H0, hist⟩ h hW0 hh
      (by rw [hexact, hfw] at *; exact hpos)
    rw [hexact, hfw] at hr
    simp [apply_transformations, crop_stage, Except.bind, hr, filter_stage,
      resize_image, resize_exact]
  · intro hist W0 H0 w hW0 hH0 hw hexact hfl hle
    have hq0 : ¬((w * H0 : ℚ) / W0 < 0) := not_lt.mpr (by positivity)
    have hfh : u32ofF32 ((w * H0 : ℚ) / W0) = Int.toNat ⌊(w * H0 : ℚ) / W0⌋ := by
      unfold u32ofF32
      rw [if_neg hq0]
      exact min_eq_left hle
    have hpos : 0 < Int.toNat ⌊(w * H0 : ℚ) / W0⌋ := by omega
    have hr := resize_stage_w_only ⟨W0, H0, hist⟩ w hH0 hw
      (by rw [hexact, hfh] at *; exact hpos)
    rw [hexact, hfh] at hr
    simp [apply_transformations, crop_stage, Except.bind, hr, filter_stage,
      resize_image, resize_exact]

/-- Witness for the amended C1: on a 3×2 image with only `h = 1`, the result
width is `⌊1 * 3 / 2⌋ = 1`; on a 2×3 image with only `w = 1`, the result
height is `⌊1 * 3 / 2⌋ = 1` (both `f32` computations are exact there). -/
theorem C1_amended_truncation_witness :
    apply_transformations ⟨3, 2, []⟩ none (some 1) none none none none none
        = .ok ⟨Int.toNat ⌊(1 * 3 : ℚ) / 2⌋, 1,
            [] ++ [PixelOp.resizeExact (Int.toNat ⌊(1 * 3 : ℚ) / 2⌋) 1
              FilterType.triangle]⟩
      ∧ apply_transformations ⟨2, 3, []⟩ (some 1) none none none none none none
        = .ok ⟨1, Int.toNat ⌊(1 * 3 : ℚ) / 2⌋,
            [] ++ [PixelOp.resizeExact 1 (Int.toNat ⌊(1 * 3 : ℚ) / 2⌋)
              FilterType.triangle]⟩ :=
  ⟨C1_amended_truncation.1 [] 3 2 1 (by decide) (by decide) (by decide)
      (by decide) (by decide) (by decide),
    C1_amended_truncation.2 [] 2 3 1 (by decide) (by decide) (by decide)
      (by decide) (by decide) (by decide)⟩

end ImageService
